import Mathlib

/-!
# Shallow embedding of the expression scanner and parser-evaluator

This file embeds `src/parser.py` — a lexical scanner (`Lexer`) and a
recursive-descent parse-and-evaluate parser (`Parser`) — into Lean, and
proves the specification's claims about it.

Modelling conventions:
* Python floats are modelled as `ℚ`; every numeric literal and every
  arithmetic result appearing in the claims is exactly representable.
* Python exceptions are modelled by `Except Err`; `Err` distinguishes the
  program's own raised messages (unexpected character, unexpected token,
  invalid factor, division by zero) from host-level failures that the code
  does not guard (`float` conversion `ValueError`, `ZeroDivisionError`
  from the unguarded `%`, `TypeError` from arithmetic on non-numbers).
* Python `while` loops and the mutually recursive grammar procedures are
  translated with an explicit fuel parameter; every entry point supplies
  fuel that provably exceeds the number of iterations the source can
  perform (each loop iteration advances the cursor), so the `outOfFuel`
  case is unreachable on the inputs considered.
* `str.isspace`, `str.isdigit`, `str.isalpha`, `str.isalnum` are modelled
  on the ASCII range, which covers every character class the program's
  token grammar recognizes.
-/

/-- Token kinds, from the `TokenType` enum of the source. -/
inductive TokenType where
  | IF | THEN | ELSE | PLUS | MINUS | MULTIPLY | DIVIDE | POWER | MODULO
  | AND | OR | NOT | EQUAL | NOT_EQUAL | LESS | GREATER | NUMBER | LPAREN
  | RPAREN | EOF
deriving DecidableEq, Repr

/-- Runtime values (Python `Any`): token payloads and evaluation results.
`num` is a float payload, `str` an operator or keyword spelling, `null`
models Python `None` (the EOF payload), and `boolean` arises from `not`. -/
inductive Value where
  | num (q : ℚ)
  | boolean (b : Bool)
  | str (s : String)
  | null
deriving DecidableEq, Repr

/-- Failure outcomes of one evaluation.  The first four are the messages
the source raises itself; the rest are host-level errors the source does
not guard against.  `outOfFuel` is an artifact of the fuel translation and
is unreachable with the fuel the entry points supply. -/
inductive Err where
  | unexpectedChar (c : Option Char) (line column : Int)
  | unexpectedToken (expected got : TokenType)
  | invalidFactor
  | divisionByZero
  | valueError (s : String)
  | zeroDivisionError
  | typeError
  | outOfFuel
deriving DecidableEq, Repr

/-- A token: kind, payload, and 1-based position, as in class `Token`. -/
structure Token where
  type : TokenType
  value : Value
  line : Int
  column : Int
deriving DecidableEq, Repr

/-- Scanner state, as in class `Lexer`: the input text, the cursor, the
character under the cursor (`None` past the end), and position counters. -/
structure Lexer where
  text : List Char
  pos : Nat
  current_char : Option Char
  line : Int
  column : Int
deriving DecidableEq, Repr

/-- `Lexer.__init__`: cursor at 0, current char is the first character if
any, position 1:1. -/
def Lexer.init (text : List Char) : Lexer :=
  { text := text, pos := 0, current_char := text[0]?, line := 1, column := 1 }

/-- `str.isspace` on the ASCII whitespace characters. -/
def pyIsSpace (c : Char) : Bool :=
  c = ' ' || c = '\t' || c = '\n' || c = '\r' || c = Char.ofNat 11 || c = Char.ofNat 12

/-- `Lexer.advance`: a newline bumps the line counter and resets the column
to 0 before the unconditional increment; the cursor moves one character. -/
def Lexer.advance (L : Lexer) : Lexer :=
  let line := if L.current_char = some '\n' then L.line + 1 else L.line
  let column := if L.current_char = some '\n' then (0 : Int) else L.column
  { text := L.text, pos := L.pos + 1, current_char := L.text[L.pos + 1]?,
    line := line, column := column + 1 }

/-- Loop body of `Lexer.skip_whitespace`. -/
def Lexer.swLoop : Nat → Lexer → Lexer
  | 0, L => L
  | fuel + 1, L =>
    match L.current_char with
    | some c => if pyIsSpace c then Lexer.swLoop fuel L.advance else L
    | none => L

/-- `Lexer.skip_whitespace`: advance while the current character is
whitespace. -/
def Lexer.skip_whitespace (L : Lexer) : Lexer :=
  Lexer.swLoop (L.text.length + 1) L

/-- Loop of `Lexer.number`: accumulate a maximal run of digit-or-dot
characters (no single-decimal-point enforcement). -/
def Lexer.numLoop : Nat → Lexer → List Char → List Char × Lexer
  | 0, L, acc => (acc, L)
  | fuel + 1, L, acc =>
    match L.current_char with
    | some c =>
      if c.isDigit || c = '.' then Lexer.numLoop fuel L.advance (acc ++ [c])
      else (acc, L)
    | none => (acc, L)

/-- The rational arithmetic below is written through `Rat.divInt` rather
than the `@[irreducible]` field operations of `ℚ`, so that concrete runs
of the evaluator reduce inside the kernel; each wrapper is proved equal to
the corresponding field operation before it is reasoned about. -/
def qmul (a b : ℚ) : ℚ :=
  Rat.divInt (a.num * b.num) (a.den * b.den)

/-- Division on `ℚ` in kernel-reducible form (`qdiv a 0 = 0`, as in `ℚ`;
the evaluator only divides after its own zero check). -/
def qdiv (a b : ℚ) : ℚ :=
  Rat.divInt (a.num * b.den) (a.den * b.num)

/-- Addition on `ℚ` in kernel-reducible form. -/
def qadd (a b : ℚ) : ℚ :=
  Rat.divInt (a.num * b.den + b.num * a.den) (a.den * b.den)

/-- Subtraction on `ℚ` in kernel-reducible form. -/
def qsub (a b : ℚ) : ℚ :=
  qadd a (-b)

/-- Value of a digit string, most significant first (empty means 0, as in
the fractional or integral part of a Python float literal). -/
def digitsNat (l : List Char) : Nat :=
  l.foldl (fun a c => a * 10 + (c.toNat - 48)) 0

/-- Python `float(s)` restricted to the strings `Lexer.number` can build
(runs of digits and dots): succeeds exactly when there is at most one dot
and at least one digit, the value being the usual decimal reading. -/
def pyFloat (l : List Char) : Option ℚ :=
  match l.span (fun c => c ≠ '.') with
  | (intPart, []) =>
    if intPart ≠ [] ∧ intPart.all Char.isDigit then some ((digitsNat intPart : ℚ)) else none
  | (intPart, _dot :: fracPart) =>
    if (intPart ≠ [] ∨ fracPart ≠ []) ∧ intPart.all Char.isDigit ∧ fracPart.all Char.isDigit
    then some (qadd ((digitsNat intPart : ℚ))
                    (Rat.divInt (digitsNat fracPart) (10 ^ fracPart.length)))
    else none

/-- `Lexer.number`: consume the digit-or-dot run, convert it with `float`
(which the source leaves unguarded: a malformed run raises `ValueError`),
and report the token at the run's starting column. -/
def Lexer.number (L : Lexer) : Except Err (Token × Lexer) :=
  match Lexer.numLoop (L.text.length + 1) L [] with
  | (result, L') =>
    match pyFloat result with
    | some v =>
      .ok (⟨.NUMBER, .num v, L'.line, L'.column - result.length⟩, L')
    | none => .error (.valueError (String.mk result))

/-- The keyword table of `Lexer.__init__`. -/
def keywords : List (String × TokenType) :=
  [("IF", .IF), ("THEN", .THEN), ("ELSE", .ELSE),
   ("AND", .AND), ("OR", .OR), ("NOT", .NOT)]

/-- Loop of `Lexer._id`: accumulate a maximal alphanumeric run. -/
def Lexer.idLoop : Nat → Lexer → List Char → List Char × Lexer
  | 0, L, acc => (acc, L)
  | fuel + 1, L, acc =>
    match L.current_char with
    | some c =>
      if c.isAlphanum then Lexer.idLoop fuel L.advance (acc ++ [c])
      else (acc, L)
    | none => (acc, L)

/-- `Lexer._id`: consume an alphanumeric run, uppercase it, and look it up
in the keyword table; a non-keyword run falls through to `Lexer.error`,
which reports the scanner's current character (the one after the run,
`None` at end of input) at the post-run position. -/
def Lexer._id (L : Lexer) : Except Err (Token × Lexer) :=
  match Lexer.idLoop (L.text.length + 1) L [] with
  | (result, L') =>
    let up := String.mk (result.map Char.toUpper)
    match keywords.lookup up with
    | some token_type =>
      .ok (⟨token_type, .str up, L'.line, L'.column - result.length⟩, L')
    | none => .error (.unexpectedChar L'.current_char L'.line L'.column)

/-- Loop of `Lexer.get_next_token` (the `while self.current_char` loop). -/
def Lexer.gntLoop : Nat → Lexer → Except Err (Token × Lexer)
  | 0, _ => .error .outOfFuel
  | fuel + 1, L =>
    match L.current_char with
    | none => .ok (⟨.EOF, .null, L.line, L.column⟩, L)
    | some c =>
      if pyIsSpace c then Lexer.gntLoop fuel L.skip_whitespace
      else if c.isDigit then L.number
      else if c.isAlpha then L._id
      else if c = '+' then
        let L := L.advance
        .ok (⟨.PLUS, .str "+", L.line, L.column - 1⟩, L)
      else if c = '-' then
        let L := L.advance
        .ok (⟨.MINUS, .str "-", L.line, L.column - 1⟩, L)
      else if c = '*' then
        let L := L.advance
        .ok (⟨.MULTIPLY, .str "*", L.line, L.column - 1⟩, L)
      else if c = '/' then
        let L := L.advance
        .ok (⟨.DIVIDE, .str "/", L.line, L.column - 1⟩, L)
      else if c = '^' then
        let L := L.advance
        .ok (⟨.POWER, .str "^", L.line, L.column - 1⟩, L)
      else if c = '%' then
        let L := L.advance
        .ok (⟨.MODULO, .str "%", L.line, L.column - 1⟩, L)
      else if c = '(' then
        let L := L.advance
        .ok (⟨.LPAREN, .str "(", L.line, L.column - 1⟩, L)
      else if c = ')' then
        let L := L.advance
        .ok (⟨.RPAREN, .str ")", L.line, L.column - 1⟩, L)
      else if c = '<' then
        let L := L.advance
        .ok (⟨.LESS, .str "<", L.line, L.column - 1⟩, L)
      else if c = '>' then
        let L := L.advance
        .ok (⟨.GREATER, .str ">", L.line, L.column - 1⟩, L)
      else .error (.unexpectedChar (some c) L.line L.column)

/-- `Lexer.get_next_token`.  The fuel bounds the loop iterations; at most
one whitespace-skipping pass precedes a returning pass, so any fuel of at
least `text.length + 1` behaves as the unbounded source loop. -/
def Lexer.get_next_token (L : Lexer) : Except Err (Token × Lexer) :=
  Lexer.gntLoop (L.text.length + 1) L

/-- Python truthiness of the values that occur: a number is truthy unless
zero, a boolean is itself, a string is truthy unless empty, `None` is
falsy. -/
def truthy : Value → Bool
  | .num q => decide (q ≠ 0)
  | .boolean b => b
  | .str s => decide (s ≠ "")
  | .null => false

/-- Python `not`, as applied in `factor`: boolean negation of truthiness. -/
def vnot (v : Value) : Value :=
  .boolean (!truthy v)

/-- Numeric reading of a value, as Python arithmetic coerces it: floats
are themselves, booleans are 0 or 1, anything else is not a number. -/
def toNum : Value → Option ℚ
  | .num q => some q
  | .boolean b => some (if b then 1 else 0)
  | .str _ => none
  | .null => none

/-- Python unary `-`, as applied in `factor`: negate the numeric reading;
a non-numeric operand is a host `TypeError`. -/
def vneg (v : Value) : Except Err Value :=
  match toNum v with
  | some x => .ok (.num (-x))
  | none => .error .typeError

/-- Python `==` against the literal `0`, as in the divisor check of
`term`: numbers compare numerically (so `False == 0` holds), other values
are simply unequal to `0`. -/
def eqZero (v : Value) : Bool :=
  match toNum v with
  | some x => decide (x = 0)
  | none => false

/-- Python `*` on the values that occur: multiply the numeric readings. -/
def vmul (a b : Value) : Except Err Value :=
  match toNum a, toNum b with
  | some x, some y => .ok (.num (qmul x y))
  | _, _ => .error .typeError

/-- Python `/` on the values that occur: divide the numeric readings.  In
`term` this runs only after the divisor was checked against zero. -/
def vdiv (a b : Value) : Except Err Value :=
  match toNum a, toNum b with
  | some x, some y => .ok (.num (qdiv x y))
  | _, _ => .error .typeError

/-- Python floored modulo on exact rationals: `a - b * ⌊a / b⌋`, the value
`a % b` takes for floats (up to rounding, exact on the inputs considered);
the sign of the result follows the divisor `b`. -/
def pymod (a b : ℚ) : ℚ :=
  qsub a (qmul b ((⌊qdiv a b⌋ : ℤ) : ℚ))

/-- Python `%` on the values that occur: the source does not guard it, so
a zero divisor is a host `ZeroDivisionError`. -/
def vmod (a b : Value) : Except Err Value :=
  match toNum a, toNum b with
  | some x, some y =>
    if y = 0 then .error .zeroDivisionError else .ok (.num (pymod x y))
  | _, _ => .error .typeError

/-- Parser state, as in class `Parser`: the scanner and the single
look-ahead token. -/
structure Parser where
  lexer : Lexer
  current_token : Token
deriving DecidableEq, Repr

/-- `Parser.__init__`: fetch the first token (a scan error propagates). -/
def Parser.init (lexer : Lexer) : Except Err Parser :=
  match lexer.get_next_token with
  | .ok (t, l) => .ok { lexer := l, current_token := t }
  | .error e => .error e

/-- `Parser.eat`: advance past the current token if its kind matches,
otherwise raise the expected-versus-actual parse error. -/
def Parser.eat (P : Parser) (token_type : TokenType) : Except Err Parser :=
  if P.current_token.type = token_type then
    match P.lexer.get_next_token with
    | .ok (t, l) => .ok { lexer := l, current_token := t }
    | .error e => .error e
  else .error (.unexpectedToken token_type P.current_token.type)

mutual

/-- `Parser.factor`: a number yields its payload, a parenthesized
expression its inner value, `NOT` the logical negation of a factor,
unary `-` the arithmetic negation of a factor; anything else is the
`Invalid factor` error. -/
def Parser.factor : Nat → Parser → Except Err (Value × Parser)
  | 0, _ => .error .outOfFuel
  | fuel + 1, P =>
    if P.current_token.type = .NUMBER then
      match P.eat .NUMBER with
      | .ok P' => .ok (P.current_token.value, P')
      | .error e => .error e
    else if P.current_token.type = .LPAREN then
      match P.eat .LPAREN with
      | .ok P' =>
        match Parser.expression fuel P' with
        | .ok (result, P'') =>
          match P''.eat .RPAREN with
          | .ok P''' => .ok (result, P''')
          | .error e => .error e
        | .error e => .error e
      | .error e => .error e
    else if P.current_token.type = .NOT then
      match P.eat .NOT with
      | .ok P' =>
        match Parser.factor fuel P' with
        | .ok (v, P'') => .ok (vnot v, P'')
        | .error e => .error e
      | .error e => .error e
    else if P.current_token.type = .MINUS then
      match P.eat .MINUS with
      | .ok P' =>
        match Parser.factor fuel P' with
        | .ok (v, P'') =>
          match vneg v with
          | .ok r => .ok (r, P'')
          | .error e => .error e
        | .error e => .error e
      | .error e => .error e
    else .error .invalidFactor

/-- The `while` loop of `Parser.term`, carrying the running result: while
the current token is `MULTIPLY`, `DIVIDE` or `MODULO`, consume it and a
following factor and combine.  Only `DIVIDE` checks its operand against
zero before combining. -/
def Parser.termLoop : Nat → Value → Parser → Except Err (Value × Parser)
  | 0, _, _ => .error .outOfFuel
  | fuel + 1, result, P =>
    if P.current_token.type = .MULTIPLY ∨ P.current_token.type = .DIVIDE ∨
       P.current_token.type = .MODULO then
      if P.current_token.type = .MULTIPLY then
        match P.eat .MULTIPLY with
        | .ok P' =>
          match Parser.factor fuel P' with
          | .ok (v, P'') =>
            match vmul result v with
            | .ok r => Parser.termLoop fuel r P''
            | .error e => .error e
          | .error e => .error e
        | .error e => .error e
      else if P.current_token.type = .DIVIDE then
        match P.eat .DIVIDE with
        | .ok P' =>
          match Parser.factor fuel P' with
          | .ok (divisor, P'') =>
            if eqZero divisor then .error .divisionByZero
            else
              match vdiv result divisor with
              | .ok r => Parser.termLoop fuel r P''
              | .error e => .error e
          | .error e => .error e
        | .error e => .error e
      else if P.current_token.type = .MODULO then
        match P.eat .MODULO with
        | .ok P' =>
          match Parser.factor fuel P' with
          | .ok (v, P'') =>
            match vmod result v with
            | .ok r => Parser.termLoop fuel r P''
            | .error e => .error e
          | .error e => .error e
        | .error e => .error e
      else Parser.termLoop fuel result P
    else .ok (result, P)

/-- `Parser.term`: one factor, then the multiplicative loop. -/
def Parser.term : Nat → Parser → Except Err (Value × Parser)
  | 0, _ => .error .outOfFuel
  | fuel + 1, P =>
    match Parser.factor fuel P with
    | .ok (result, P') => Parser.termLoop fuel result P'
    | .error e => .error e

/-- `Parser.expression`: delegates to `term`. -/
def Parser.expression : Nat → Parser → Except Err (Value × Parser)
  | 0, _ => .error .outOfFuel
  | fuel + 1, P => Parser.term fuel P

end

/-- `Parser.parse`: run `expression` once; the final parser state (with
any unconsumed trailing tokens) is returned alongside, and no check that
the token stream is exhausted is performed. -/
def Parser.parse (fuel : Nat) (P : Parser) : Except Err (Value × Parser) :=
  Parser.expression fuel P

/-- `evaluate`: build a fresh scanner and parser over the text and parse.
The fuel `4 * length + 8` exceeds the recursion the source can perform on
the text, since every grammar level first consumes a token. -/
def evaluate (text : String) : Except Err Value :=
  match Parser.init (Lexer.init text.data) with
  | .ok parser =>
    match Parser.parse (4 * text.data.length + 8) parser with
    | .ok (v, _) => .ok v
    | .error e => .error e
  | .error e => .error e

/-- Decidable equality of outcomes, used to evaluate the embedding on
concrete inputs. -/
instance {ε α : Type} [DecidableEq ε] [DecidableEq α] : DecidableEq (Except ε α) :=
  fun x y =>
    match x, y with
    | .ok a, .ok b => decidable_of_iff (a = b) (by simp)
    | .error a, .error b => decidable_of_iff (a = b) (by simp)
    | .ok _, .error _ => .isFalse (by simp)
    | .error _, .ok _ => .isFalse (by simp)

/-- The parser state reached while evaluating `"5/0"` at the moment the
loop of `term` inspects the `DIVIDE` token. -/
def divP0 : Parser :=
  { lexer := { text := ['5', '/', '0'], pos := 2, current_char := some '0',
               line := 1, column := 3 },
    current_token := { type := .DIVIDE, value := .str "/", line := 1, column := 2 } }

/-- The parser state after `eat(DIVIDE)` in that run. -/
def divP1 : Parser :=
  { lexer := { text := ['5', '/', '0'], pos := 3, current_char := none,
               line := 1, column := 4 },
    current_token := { type := .NUMBER, value := .num 0, line := 1, column := 3 } }

/-- The parser state after the divisor's `factor()` in that run. -/
def divP2 : Parser :=
  { lexer := { text := ['5', '/', '0'], pos := 3, current_char := none,
               line := 1, column := 4 },
    current_token := { type := .EOF, value := .null, line := 1, column := 4 } }

/-! ## Properties of the kernel-reducible rational wrappers -/

theorem qmul_eq (a b : ℚ) : qmul a b = a * b := by
  unfold qmul
  rw [← Rat.num_divInt_den a, ← Rat.num_divInt_den b, Rat.divInt_mul_divInt] <;>
    simp [Rat.den_ne_zero]

theorem qadd_eq (a b : ℚ) : qadd a b = a + b := by
  unfold qadd
  rw [← Rat.num_divInt_den a, ← Rat.num_divInt_den b,
    Rat.divInt_add_divInt _ _ (by exact_mod_cast Rat.den_ne_zero a)
      (by exact_mod_cast Rat.den_ne_zero b)]
  simp [Rat.num_divInt_den]

theorem qsub_eq (a b : ℚ) : qsub a b = a - b := by
  unfold qsub
  rw [qadd_eq, sub_eq_add_neg]

theorem qdiv_eq (a b : ℚ) : qdiv a b = a / b := by
  unfold qdiv
  by_cases hb : b = 0
  · subst hb
    simp
  · have hbn : b.num ≠ 0 := Rat.num_ne_zero.mpr hb
    rw [div_eq_mul_inv, Rat.inv_def', ← Rat.num_divInt_den a, Rat.divInt_mul_divInt]
    · simp [Rat.num_divInt_den]
    · exact_mod_cast Rat.den_ne_zero a
    · exact_mod_cast hbn

theorem pymod_eq (a b : ℚ) : pymod a b = a - b * ⌊a / b⌋ := by
  unfold pymod
  rw [qsub_eq, qmul_eq, qdiv_eq]

/-! ## Behaviour of the identifier scan -/

/-- The loop of `Lexer._id` consumes exactly the maximal alphanumeric run
starting at the cursor; the line is unchanged (alphanumeric characters are
never newlines) and the column advances by the run's length. -/
theorem Lexer.idLoop_spec (fuel : Nat) :
    ∀ (L : Lexer) (acc : List Char),
    L.current_char = L.text[L.pos]? →
    L.text.length - L.pos < fuel →
    Lexer.idLoop fuel L acc =
      (acc ++ (L.text.drop L.pos).takeWhile Char.isAlphanum,
       ⟨L.text,
        L.pos + ((L.text.drop L.pos).takeWhile Char.isAlphanum).length,
        L.text[L.pos + ((L.text.drop L.pos).takeWhile Char.isAlphanum).length]?,
        L.line,
        L.column + ((L.text.drop L.pos).takeWhile Char.isAlphanum).length⟩) := by
  induction fuel with
  | zero => intro L acc hinv hfuel; omega
  | succ fuel ih =>
    rintro ⟨text, pos, cc, line, col⟩ acc hinv hfuel
    simp only at hinv hfuel
    subst hinv
    rcases hc : text[pos]? with _ | c <;> dsimp only
    · have hlen : text.length ≤ pos := List.getElem?_eq_none_iff.mp hc
      have hdrop : text.drop pos = [] := List.drop_eq_nil_of_le hlen
      simp [Lexer.idLoop, hc, hdrop]
    · have hpos : pos < text.length := (List.getElem?_eq_some.mp hc).1
      have hdrop : text.drop pos = c :: text.drop (pos + 1) :=
        (List.drop_eq_getElem_cons hpos).trans (by
          congr 1
          exact (List.getElem?_eq_some.mp hc).2)
      by_cases halnum : c.isAlphanum
      · have hnl : ¬(c = '\n') := fun h => absurd (h ▸ halnum) (by decide)
        have hadv : (Lexer.mk text pos (some c) line col).advance =
            ⟨text, pos + 1, text[pos + 1]?, line, col + 1⟩ := by
          simp [Lexer.advance, hnl]
        rw [Lexer.idLoop]
        simp only [halnum, if_true, hadv]
        rw [ih ⟨text, pos + 1, text[pos + 1]?, line, col + 1⟩ (acc ++ [c]) rfl
            (show text.length - (pos + 1) < fuel by omega)]
        rw [hdrop, List.takeWhile_cons]
        simp only [halnum, if_true]
        have hidx : pos + 1 + ((text.drop (pos + 1)).takeWhile Char.isAlphanum).length =
            pos + (((text.drop (pos + 1)).takeWhile Char.isAlphanum).length + 1) := by omega
        simp only [Prod.mk.injEq, Lexer.mk.injEq, List.length_cons]
        refine ⟨by simp, trivial, by omega, by rw [hidx], trivial, by push_cast; ring⟩
      · have hbf : c.isAlphanum = false := by simpa using halnum
        rw [Lexer.idLoop]
        simp only [hbf, Bool.false_eq_true, if_false]
        rw [hdrop, List.takeWhile_cons]
        simp [hbf, hc]

/-! ## The claims -/

/-- C1: for the input `"2+3"`, `evaluate` does not fail and does not
return `5.0`: it returns `2.0`, because the loop of `term` recognizes only
`MULTIPLY`/`DIVIDE`/`MODULO` and the top level never checks that the token
stream is exhausted — after parsing, the unconsumed current token is the
`PLUS` of the trailing `+3`. -/
theorem evaluate_two_plus_three :
    evaluate "2+3" = .ok (.num 2) ∧
    evaluate "2+3" ≠ .ok (.num 5) ∧
    (match Parser.init (Lexer.init "2+3".data) with
     | .ok P =>
       match Parser.parse (4 * "2+3".data.length + 8) P with
       | .ok (v, P') => some (v, P'.current_token.type)
       | .error _ => none
     | .error _ => none) = some (Value.num 2, TokenType.PLUS) := by
  refine ⟨by decide, by decide, by decide⟩

/-- C2 counterexample: evaluating `"-10%3"` yields `2.0`, which is
strictly positive although the dividend `-10` is negative — the sign of
the result does not follow the dividend. -/
theorem mod_sign_counterexample :
    evaluate "-10%3" = .ok (.num 2) ∧ (-10 : ℚ) < 0 ∧ (0 : ℚ) < 2 := by
  refine ⟨by decide, by decide, by decide⟩

/-- C2 amended: `MODULO` uses Python's floored modulo,
`a % b = a - b * ⌊a / b⌋`, whose sign follows the divisor `b`, not the
dividend `a`: for `b > 0` the result is in `[0, b)` and for `b < 0` it is
in `(b, 0]`. -/
theorem pymod_sign_follows_divisor (a b : ℚ) (hb : b ≠ 0) :
    vmod (.num a) (.num b) = .ok (.num (pymod a b)) ∧
    pymod a b = a - b * ⌊a / b⌋ ∧
    (0 < b → 0 ≤ pymod a b ∧ pymod a b < b) ∧
    (b < 0 → b < pymod a b ∧ pymod a b ≤ 0) := by
  have h1 : ((⌊a / b⌋ : ℚ)) ≤ a / b := Int.floor_le _
  have h2 : a / b < (⌊a / b⌋ : ℚ) + 1 := Int.lt_floor_add_one _
  refine ⟨by simp [vmod, toNum, hb], pymod_eq a b, ?_, ?_⟩
  · intro hpos
    have h3 : (⌊a / b⌋ : ℚ) * b ≤ a := (le_div_iff₀ hpos).mp h1
    have h4 : a < ((⌊a / b⌋ : ℚ) + 1) * b := (div_lt_iff₀ hpos).mp h2
    rw [pymod_eq]
    constructor <;> nlinarith
  · intro hneg
    have h3 : a ≤ (⌊a / b⌋ : ℚ) * b := (le_div_iff_of_neg hneg).mp h1
    have h4 : ((⌊a / b⌋ : ℚ) + 1) * b < a := (div_lt_iff_of_neg hneg).mp h2
    rw [pymod_eq]
    constructor <;> nlinarith

/-- C2 witness: the amended statement at the concrete input `"-10%3"`,
where the result `2` lies in `[0, 3)`. -/
theorem pymod_sign_follows_divisor_witness :
    (3 : ℚ) ≠ 0 ∧
    (vmod (.num (-10)) (.num 3) = .ok (.num (pymod (-10) 3)) ∧
     pymod (-10) 3 = -10 - 3 * ⌊(-10 : ℚ) / 3⌋ ∧
     (0 < (3 : ℚ) → 0 ≤ pymod (-10) 3 ∧ pymod (-10) 3 < 3) ∧
     ((3 : ℚ) < 0 → 3 < pymod (-10) 3 ∧ pymod (-10) 3 ≤ 0)) :=
  ⟨by norm_num, pymod_sign_follows_divisor (-10) 3 (by norm_num)⟩

/-- C3: `evaluate("5/0")` fails with the `Division by zero` error; in
general, whenever the current token is `DIVIDE` and the fully evaluated
right operand compares equal to zero, the loop of `term` raises
`Division by zero` before any division is performed. -/
theorem divide_zero_guard :
    evaluate "5/0" = .error .divisionByZero ∧
    ∀ (fuel : Nat) (result : Value) (P P1 P2 : Parser) (divisor : Value),
      P.current_token.type = .DIVIDE →
      P.eat .DIVIDE = .ok P1 →
      Parser.factor fuel P1 = .ok (divisor, P2) →
      eqZero divisor = true →
      Parser.termLoop (fuel + 1) result P = .error .divisionByZero := by
  refine ⟨by decide, ?_⟩
  intro fuel result P P1 P2 divisor hcur heat hfac hzero
  rw [Parser.termLoop, hcur]
  simp only [reduceCtorEq, false_or, or_false, if_true, if_false, reduceIte]
  simp [heat, hfac, hzero]

/-- C3 witness: the guard statement applied at the concrete parser state
reached while evaluating `"5/0"`, with divisor `0`. -/
theorem divide_zero_guard_witness :
    divP0.current_token.type = .DIVIDE ∧
    divP0.eat .DIVIDE = .ok divP1 ∧
    Parser.factor 4 divP1 = .ok (Value.num 0, divP2) ∧
    eqZero (Value.num 0) = true ∧
    Parser.termLoop 5 (Value.num 5) divP0 = .error .divisionByZero :=
  ⟨by decide, by decide, by decide, by decide,
   divide_zero_guard.2 4 (Value.num 5) divP0 divP1 divP2 (Value.num 0)
     (by decide) (by decide) (by decide) (by decide)⟩

/-- C4: the multiplicative operators compute standard arithmetic,
left-associatively: `2*3 = 6.0`, `10/4 = 2.5`, `10%3 = 1.0` (and the
left-associated `8/4/2 = 1.0`, not the right-associated `4.0`). -/
theorem multiplicative_operators :
    evaluate "2*3" = .ok (.num 6) ∧
    evaluate "10/4" = .ok (.num 2.5) ∧
    evaluate "10%3" = .ok (.num 1) ∧
    evaluate "8/4/2" = .ok (.num 1) := by
  refine ⟨by decide, ?_, by decide, by decide⟩
  have h : evaluate "10/4" = .ok (.num (Rat.divInt 5 2)) := by decide
  rw [h]
  norm_num [Rat.divInt_eq_div]

/-- C5: `NOT` returns the boolean logical negation of its factor's value,
with zero as the only falsy numeric value: `NOT 0` is `true`, `NOT 5` is
`false`, and in general `not` of a number is `true` exactly for zero. -/
theorem not_factor_negation :
    evaluate "NOT 0" = .ok (.boolean true) ∧
    evaluate "NOT 5" = .ok (.boolean false) ∧
    ∀ q : ℚ, (vnot (.num q) = .boolean true ↔ q = 0) := by
  refine ⟨by decide, by decide, fun q => ?_⟩
  simp [vnot, truthy]

/-- C6 counterexample: scanning `"1.2.3"` does not produce a `NUMBER`
token — the unguarded `float("1.2.3")` conversion fails, so the whole
evaluation fails with the host `ValueError`. -/
theorem malformed_literal_counterexample :
    Lexer.get_next_token (Lexer.init "1.2.3".data) = .error (.valueError "1.2.3") ∧
    evaluate "1.2.3" = .error (.valueError "1.2.3") := by
  refine ⟨by decide, by decide⟩

/-- C6 amended: the digit loop of the scanner does consume the maximal
digit-or-dot run without enforcing a single decimal point (all five
characters of `"1.2.3"`), but the subsequent `float` conversion of the
malformed text fails, so scanning raises a host `ValueError` instead of
producing a `NUMBER` token. -/
theorem malformed_literal_behavior :
    (Lexer.numLoop ("1.2.3".data.length + 1) (Lexer.init "1.2.3".data) []).1
      = "1.2.3".data ∧
    pyFloat "1.2.3".data = none ∧
    Lexer.get_next_token (Lexer.init "1.2.3".data) = .error (.valueError "1.2.3") := by
  refine ⟨by decide, by decide, by decide⟩

/-- C7 counterexample: `evaluate("abc")` does fail, but the error carries
no character at all — the scanner has moved past the run, so the payload
is `None` at column 4, not the offending run's character at column 1. -/
theorem nonkeyword_run_counterexample :
    evaluate "abc" = .error (.unexpectedChar none 1 4) ∧
    Err.unexpectedChar none 1 4 ≠ Err.unexpectedChar (some 'a') 1 1 := by
  refine ⟨by decide, by decide⟩

/-- C7 amended: for every alphanumeric run at the scanner's cursor whose
uppercase is not a keyword, `_id` fails immediately with the unexpected-
character error, but the error carries the character just after the run
(`None` at end of input) and the post-run column, not the run or its
starting position. -/
theorem id_nonkeyword_error (L : Lexer)
    (hinv : L.current_char = L.text[L.pos]?)
    (hkw : keywords.lookup
        (String.mk (((L.text.drop L.pos).takeWhile Char.isAlphanum).map Char.toUpper))
      = none) :
    L._id = .error (.unexpectedChar
      (L.text[L.pos + ((L.text.drop L.pos).takeWhile Char.isAlphanum).length]?)
      L.line
      (L.column + ((L.text.drop L.pos).takeWhile Char.isAlphanum).length)) := by
  unfold Lexer._id
  rw [Lexer.idLoop_spec _ L [] hinv (by omega)]
  dsimp only
  rw [List.nil_append, hkw]

/-- C7 witness: the amended statement at the concrete scanner over
`"abc"`, whose run `abc` uppercases to the non-keyword `ABC`: the error
payload is `None` at line 1, column 4. -/
theorem id_nonkeyword_error_witness :
    (Lexer.init "abc".data).current_char
      = (Lexer.init "abc".data).text[(Lexer.init "abc".data).pos]? ∧
    keywords.lookup (String.mk ((((Lexer.init "abc".data).text.drop
        (Lexer.init "abc".data).pos).takeWhile Char.isAlphanum).map Char.toUpper))
      = none ∧
    Lexer._id (Lexer.init "abc".data) = .error (.unexpectedChar none 1 4) :=
  ⟨rfl, by decide, by
    have h := id_nonkeyword_error (Lexer.init "abc".data) rfl (by decide)
    exact h.trans (by decide)⟩

/-- C8: advancing the scanner past a newline increments the line counter
and resets the column counter to 0 before the subsequent increment, so
the character immediately after the newline is reported at column 1. -/
theorem advance_newline (L : Lexer) (h : L.current_char = some '\n') :
    L.advance.line = L.line + 1 ∧ L.advance.column = 0 + 1 := by
  simp [Lexer.advance, h]

/-- C8 witness: the scanner over a single newline, initially at 1:1,
reports position 2:1 after advancing. -/
theorem advance_newline_witness :
    (Lexer.init ['\n']).current_char = some '\n' ∧
    ((Lexer.init ['\n']).advance.line = (Lexer.init ['\n']).line + 1 ∧
     (Lexer.init ['\n']).advance.column = 0 + 1) :=
  ⟨by decide, advance_newline (Lexer.init ['\n']) (by decide)⟩

/-- C9: two evaluations of the same input string produce identical
outcomes.  The embedding makes `evaluate` a pure function that constructs
a fresh `Lexer.init`/`Parser.init` from the text alone, so no state can
leak between calls and the two runs are definitionally the same. -/
theorem evaluate_deterministic : ∀ s : String, evaluate s = evaluate s :=
  fun _ => rfl

/-- C10: `evaluate("5%0")` fails with the host's unguarded zero-division
error, which is distinct from the `Division by zero` error that the
explicit check in `term` raises for `DIVIDE` only. -/
theorem modulo_zero_host_error :
    evaluate "5%0" = .error .zeroDivisionError ∧
    Err.zeroDivisionError ≠ Err.divisionByZero := by
  refine ⟨by decide, by decide⟩
